import Mathlib

/-!
Verification of the medmarket-bot dietary-assistant services against their
specification.  The Python modules `middleware.py` (recipe search, shop
locator, pricing, GPT advice client) and `handlers.py` (conversation state
machine) are shallowly embedded below: Python dictionaries become Lean
structures or association lists, Python floats become `ℚ` (exact rational
arithmetic) except for the geometric distance computation, which is modelled
over `ℝ` because it takes a square root.
-/

namespace Medmarket

/-! ## String model

Python string operations used by the recipe search: `str.lower`, `str.strip`
and the `in` substring test.  Strings are handled as `List Char`.
`pyLower` models Python `str.lower` character by character for the Latin and
Cyrillic ranges occurring in the catalog and in queries; every character of
these alphabets lower-cases to a single character, exactly as mapped here. -/

/-- Case-map of a single character: ASCII `A`-`Z`, Cyrillic `А`-`Я`
(U+0410–U+042F, lowercase at +0x20) and `Ё` (U+0401 → U+0451). -/
def pyLower (c : Char) : Char :=
  if 65 ≤ c.toNat ∧ c.toNat ≤ 90 then Char.ofNat (c.toNat + 32)
  else if 0x410 ≤ c.toNat ∧ c.toNat ≤ 0x42F then Char.ofNat (c.toNat + 32)
  else if c.toNat = 0x401 then Char.ofNat 0x451
  else c

/-- Lower-casing of a whole string, as a character list. -/
def lowerChars (s : String) : List Char := s.data.map pyLower

/-- Whitespace recognised by Python `str.strip` (ASCII whitespace; the
catalog and the queries considered here contain no exotic Unicode spaces). -/
def isPySpace (c : Char) : Bool :=
  c = ' ' || c = '\t' || c = '\n' || c = '\r' || c.toNat = 11 || c.toNat = 12

/-- Python `str.strip`: drop leading and trailing whitespace. -/
def pyStrip (l : List Char) : List Char :=
  ((l.dropWhile isPySpace).reverse.dropWhile isPySpace).reverse

/-- Python substring containment `needle in hay`.  The empty needle is a
substring of everything, as in Python. -/
def isSubOf (needle : List Char) : List Char → Bool
  | [] => needle.isEmpty
  | c :: rest => needle.isPrefixOf (c :: rest) || isSubOf needle rest

/-! ## Recipe data model (`services/recipe_service.py`)

Numeric recipe fields are integers in the source data; they are carried as
`ℚ` since the Python values are floats/ints compared against numeric
thresholds. -/

/-- One ingredient record of a recipe (`amount` is read but never used by the
search; it is carried for fidelity to the data model). -/
structure Ingredient where
  name : String
  amount : ℚ
  unit : String
deriving DecidableEq

/-- One recipe record of the mock catalog. -/
structure Recipe where
  id : String
  name : String
  description : String
  calories : ℚ
  proteins : ℚ
  fats : ℚ
  carbs : ℚ
  glycemic_index : ℚ
  purines : ℚ
  suitable_for_diabetes : Bool
  suitable_for_gout : Bool
  suitable_for_celiac : Bool
  ingredients : List Ingredient
  instructions : List String
deriving DecidableEq

/-- The fixed catalog `MOCK_RECIPES` of `recipe_service.py`, transcribed. -/
def MOCK_RECIPES : List Recipe := [
  { id := "r_001"
    name := "Курица с брокколи на пару"
    description := "Лёгкое диетическое блюдо для диабетиков"
    calories := 320, proteins := 42, fats := 9, carbs := 18
    glycemic_index := 35, purines := 45
    suitable_for_diabetes := true
    suitable_for_gout := false
    suitable_for_celiac := true
    ingredients := [
      { name := "Куриное филе", amount := 300, unit := "g" },
      { name := "Брокколи", amount := 200, unit := "g" },
      { name := "Оливковое масло", amount := 10, unit := "ml" },
      { name := "Соль, перец", amount := 1, unit := "щепотка" }]
    instructions := [
      "Нарезать курицу кусочками",
      "Разделить брокколи на соцветия",
      "Готовить на пару 15-20 минут",
      "Приправить солью и перцем"] },
  { id := "r_002"
    name := "Салат «Зелёный микс»"
    description := "Лёгкий овощной салат для всех диагнозов"
    calories := 150, proteins := 5, fats := 8, carbs := 12
    glycemic_index := 20, purines := 5
    suitable_for_diabetes := true
    suitable_for_gout := true
    suitable_for_celiac := true
    ingredients := [
      { name := "Листья салата", amount := 100, unit := "g" },
      { name := "Помидоры", amount := 100, unit := "g" },
      { name := "Огурец", amount := 1, unit := "шт" },
      { name := "Оливковое масло", amount := 15, unit := "ml" },
      { name := "Лимонный сок", amount := 15, unit := "ml" }]
    instructions := [
      "Промыть салат и овощи",
      "Нарезать овощи",
      "Смешать в миске",
      "Приправить маслом и лимоном"] },
  { id := "r_003"
    name := "Рыба на гриле"
    description := "Белая рыба с минимумом пуринов"
    calories := 280, proteins := 38, fats := 12, carbs := 2
    glycemic_index := 10, purines := 120
    suitable_for_diabetes := true
    suitable_for_gout := false
    suitable_for_celiac := true
    ingredients := [
      { name := "Морская рыба", amount := 300, unit := "g" },
      { name := "Лимон", amount := 1, unit := "шт" },
      { name := "Зелень", amount := 20, unit := "g" }]
    instructions := [
      "Подготовить рыбу",
      "Выложить на гриль",
      "Готовить 12-15 минут",
      "Украсить лимоном и зеленью"] }]

/-! ## Recipe service (`RecipeService`) -/

/-- Diagnosis filter of `RecipeService._filter_by_diagnosis` (the leading
underscore of the Python name is dropped).  The loop with `continue`
statements is a filter whose predicate rejects a recipe as soon as one
enabled diagnosis rule rejects it. -/
def filter_by_diagnosis (recipes : List Recipe)
    (has_diabetes has_gout has_celiac : Bool) : List Recipe :=
  recipes.filter fun recipe =>
    if has_diabetes && decide (recipe.glycemic_index > 60) then false
    else if has_gout && decide (recipe.purines > 100) then false
    else if has_celiac && !recipe.suitable_for_celiac then false
    else true

/-- Matching test of `RecipeService.search_recipes`: the (already normalised)
query is a substring of the lower-cased recipe name or of some lower-cased
ingredient name. -/
def recipeMatches (query_lower : List Char) (recipe : Recipe) : Bool :=
  isSubOf query_lower (recipe.name.data.map pyLower) ||
    recipe.ingredients.any fun ing => isSubOf query_lower (ing.name.data.map pyLower)

/-- Embedding of `RecipeService.search_recipes`: normalise the query with
`lower().strip()`, keep catalog recipes matching by name or ingredient,
apply the diagnosis filter, truncate to `limit`. -/
def search_recipes (query : String)
    (has_diabetes has_gout has_celiac : Bool) (limit : Nat) : List Recipe :=
  let query_lower := pyStrip (lowerChars query)
  let matching_recipes := MOCK_RECIPES.filter (recipeMatches query_lower)
  let filtered_recipes :=
    filter_by_diagnosis matching_recipes has_diabetes has_gout has_celiac
  filtered_recipes.take limit

/-- Modelled from the claim wording of C1 (for comparison with the source):
matching with the lower-cased query only, without the whitespace strip the
source performs. -/
def recipeMatchesClaimC1 (query : String) (recipe : Recipe) : Bool :=
  recipeMatches (lowerChars query) recipe

/-- Modelled from the claim wording of C1: search as the claim states it,
with no strip of the query. -/
def search_recipes_claimC1 (query : String)
    (has_diabetes has_gout has_celiac : Bool) (limit : Nat) : List Recipe :=
  (filter_by_diagnosis (MOCK_RECIPES.filter (recipeMatchesClaimC1 query))
    has_diabetes has_gout has_celiac).take limit

/-! ## Lemmas about the diagnosis filter predicate -/

/-- The if-chain of the diagnosis filter accepts a recipe exactly when every
enabled rule accepts it. -/
lemma filter_by_diagnosis_pred_iff (d g c : Bool) (r : Recipe) :
    ((if d && decide (r.glycemic_index > 60) then false
      else if g && decide (r.purines > 100) then false
      else if c && !r.suitable_for_celiac then false
      else true) = true) ↔
      (d && decide (r.glycemic_index > 60)) = false ∧
      (g && decide (r.purines > 100)) = false ∧
      (c && !r.suitable_for_celiac) = false := by
  split_ifs <;> simp_all

/-- A conjunction with a stronger flag rejecting forces the weaker flag to
reject as well. -/
lemma band_false_of_imp (x y a : Bool) (h : x = true → y = true) :
    (y && a) = false → (x && a) = false := by
  cases x <;> cases y <;> simp_all

/-! ## Claims about the recipe service -/

/-- C1 (counterexample): the catalog search normalises the query with
`lower().strip()`, not with `lower()` alone as the claim states; on the
query "пару " (trailing space) the code finds recipe r_001, while the
claim's matching relation finds nothing. -/
theorem C1_counterexample :
    (search_recipes "пару " false false false 10).map Recipe.id = ["r_001"] ∧
    search_recipes_claimC1 "пару " false false false 10 = [] := by
  exact ⟨by decide, by decide⟩

/-- C1 (amended): for every query, flag combination and limit,
`search_recipes` returns exactly the catalog recipes whose lower-cased name
or some lower-cased ingredient name contains the lower-cased,
whitespace-stripped query, after diagnosis filtering, in catalog insertion
order, truncated to the first `limit`; the empty query matches every
recipe. -/
theorem C1_search_recipes_characterisation (query : String)
    (d g c : Bool) (limit : Nat) :
    search_recipes query d g c limit =
      (filter_by_diagnosis
        (MOCK_RECIPES.filter (recipeMatches (pyStrip (lowerChars query))))
        d g c).take limit ∧
    (search_recipes query d g c limit).Sublist MOCK_RECIPES ∧
    search_recipes "" d g c limit =
      (filter_by_diagnosis MOCK_RECIPES d g c).take limit := by
  refine ⟨rfl, ?_, rfl⟩
  exact (List.take_sublist _ _).trans
    ((List.filter_sublist _).trans (List.filter_sublist _))

/-- C2: the three diagnosis rules are applied independently after matching,
and a recipe is kept iff it passes all enabled ones: diabetes excludes
glycemic index > 60, gout excludes purines > 100, celiac excludes recipes
not suitable for celiac. -/
theorem C2_filter_by_diagnosis_keeps_iff (recipes : List Recipe)
    (d g c : Bool) (r : Recipe) :
    r ∈ filter_by_diagnosis recipes d g c ↔
      r ∈ recipes ∧
      (d = true → r.glycemic_index ≤ 60) ∧
      (g = true → r.purines ≤ 100) ∧
      (c = true → r.suitable_for_celiac = true) := by
  unfold filter_by_diagnosis
  rw [List.mem_filter, filter_by_diagnosis_pred_iff]
  constructor
  · rintro ⟨hm, h1, h2, h3⟩
    refine ⟨hm, ?_, ?_, ?_⟩
    · rintro rfl
      simpa [not_lt] using h1
    · rintro rfl
      simpa [not_lt] using h2
    · rintro rfl
      simpa using h3
  · rintro ⟨hm, h1, h2, h3⟩
    refine ⟨hm, ?_, ?_, ?_⟩
    · cases d with
      | false => simp
      | true => simp [not_lt.mpr (h1 rfl)]
    · cases g with
      | false => simp
      | true => simp [not_lt.mpr (h2 rfl)]
    · cases c with
      | false => simp
      | true => simp [h3 rfl]

/-- C8: enabling additional diagnosis flags never increases the number of
recipes returned for a fixed query and limit. -/
theorem C8_diagnosis_filters_monotone (query : String) (limit : Nat)
    (d g c d2 g2 c2 : Bool)
    (hd : d = true → d2 = true) (hg : g = true → g2 = true)
    (hc : c = true → c2 = true) :
    (search_recipes query d2 g2 c2 limit).length ≤
      (search_recipes query d g c limit).length := by
  have hsub : ∀ M : List Recipe,
      (filter_by_diagnosis M d2 g2 c2).Sublist (filter_by_diagnosis M d g c) := by
    intro M
    unfold filter_by_diagnosis
    apply List.monotone_filter_right
    intro r hr
    rw [filter_by_diagnosis_pred_iff] at hr ⊢
    exact ⟨band_false_of_imp _ _ _ hd hr.1,
      band_false_of_imp _ _ _ hg hr.2.1,
      band_false_of_imp _ _ _ hc hr.2.2⟩
  simp only [search_recipes, List.length_take]
  exact min_le_min le_rfl (hsub _).length_le

/-- Witness for C8 at a concrete input: enabling the diabetes flag on the
empty query does not increase the result count. -/
theorem C8_witness :
    (search_recipes "" true false false 10).length ≤
      (search_recipes "" false false false 10).length :=
  C8_diagnosis_filters_monotone "" 10 false false false true false false
    (by decide) (by decide) (by decide)

/-! ## Shop data model (`services/shop_service.py`)

Coordinates and distances are modelled over `ℝ`: the Python code computes
`(lat_diff ** 2 + lon_diff ** 2) ** 0.5`, and for a nonnegative operand
`x ** 0.5` is the square root.  The definitions of this section are
noncomputable for that reason; every other service stays executable. -/

/-- One shop record of the mock catalog.  The coordinate literals of the
source are decimal numbers, carried exactly as `ℚ` (so that the catalog
stays executable); they are cast to `ℝ` inside the distance computation. -/
structure Shop where
  id : String
  name : String
  latitude : ℚ
  longitude : ℚ
  address : String
  rating : ℚ
  working_hours : String
deriving DecidableEq

/-- The fixed catalog `MOCK_SHOPS` of `shop_service.py`, transcribed. -/
def MOCK_SHOPS : List Shop := [
  { id := "shop_001", name := "Пятёрочка на Красной площади"
    latitude := 55.7558, longitude := 37.6173
    address := "Москва, Красная площадь, 1", rating := 4.7
    working_hours := "08:00-23:00" },
  { id := "shop_002", name := "Магнит"
    latitude := 55.7500, longitude := 37.6200
    address := "Москва, Тверская, 15", rating := 4.5
    working_hours := "07:00-23:00" },
  { id := "shop_003", name := "Дикси"
    latitude := 55.7600, longitude := 37.6100
    address := "Москва, Охотный ряд, 2", rating := 4.3
    working_hours := "06:00-23:00" }]

/-- Embedding of `ShopService._calculate_distance` (underscore dropped): the
planar approximation with both degree scales at 111 km and no cosine
correction. -/
noncomputable def calculate_distance (lat1 lon1 lat2 lon2 : ℝ) : ℝ :=
  Real.sqrt (((lat2 - lat1) * 111) ^ 2 + ((lon2 - lon1) * 111) ^ 2)

/-- Python `round(x, 2)`.  Mathlib `round` rounds half away from the floor
while Python floats round half to even; the two can differ only when
`x * 100` is exactly half-integral, which no claim here exercises. -/
noncomputable def round2 (x : ℝ) : ℝ := (round (x * 100) : ℤ) / 100

/-- A `shop.copy()` dictionary extended with the `distance_km` key. -/
structure NearShop where
  shop : Shop
  distance_km : ℝ

section ShopLocator

open Classical

/-- Inclusion test of the shop loop: `distance <= radius_km` (inclusive). -/
noncomputable def withinRadius (latitude longitude radius_km : ℝ) (s : Shop) : Bool :=
  decide (calculate_distance latitude longitude (s.latitude : ℝ) (s.longitude : ℝ) ≤ radius_km)

/-- Insertion step of a stable sort on the reported distance: an element
moves past strictly smaller keys only, so ties keep their original relative
order, as Python's stable `list.sort` does. -/
noncomputable def insertShopByDist (x : NearShop) : List NearShop → List NearShop
  | [] => [x]
  | y :: ys =>
    if y.distance_km < x.distance_km then y :: insertShopByDist x ys
    else x :: y :: ys

/-- Stable sort by the `distance_km` key, modelling
`shops_with_distance.sort(key=lambda x: x["distance_km"])`. -/
noncomputable def sortShopsByDist : List NearShop → List NearShop
  | [] => []
  | x :: xs => insertShopByDist x (sortShopsByDist xs)

/-- Embedding of `ShopService.find_nearby_shops`: collect every catalog shop
whose planar distance is within the radius, tagged with the rounded
distance, then sort by that distance and truncate to `limit`. -/
noncomputable def find_nearby_shops (latitude longitude radius_km : ℝ)
    (limit : Nat) : List NearShop :=
  let shops_with_distance := MOCK_SHOPS.foldr (fun shop acc =>
    let distance :=
      calculate_distance latitude longitude (shop.latitude : ℝ) (shop.longitude : ℝ)
    if withinRadius latitude longitude radius_km shop then
      { shop := shop, distance_km := round2 distance } :: acc
    else acc) []
  (sortShopsByDist shops_with_distance).take limit

/-- Modelled from the claim wording of C3: the shops included are exactly
the catalog shops whose planar distance is at most the radius, each
reported with its distance rounded to two decimal places. -/
noncomputable def included_shops_spec (latitude longitude radius_km : ℝ) :
    List NearShop :=
  (MOCK_SHOPS.filter (withinRadius latitude longitude radius_km)).map fun shop =>
    { shop := shop
      distance_km :=
        round2 (calculate_distance latitude longitude
          (shop.latitude : ℝ) (shop.longitude : ℝ)) }

end ShopLocator

/-! ## Sortedness of the shop sort -/

/-- Membership across insertion. -/
lemma mem_insertShopByDist (x z : NearShop) (l : List NearShop) :
    z ∈ insertShopByDist x l ↔ z = x ∨ z ∈ l := by
  induction l with
  | nil => simp [insertShopByDist]
  | cons y ys ih =>
    by_cases h : y.distance_km < x.distance_km
    · simp only [insertShopByDist, if_pos h, List.mem_cons, ih]
      tauto
    · simp only [insertShopByDist, if_neg h, List.mem_cons]

/-- Insertion preserves sortedness by the distance key. -/
lemma pairwise_insertShopByDist (x : NearShop) (l : List NearShop)
    (h : l.Pairwise fun a b => a.distance_km ≤ b.distance_km) :
    (insertShopByDist x l).Pairwise fun a b => a.distance_km ≤ b.distance_km := by
  induction l with
  | nil => simp [insertShopByDist]
  | cons y ys ih =>
    rw [List.pairwise_cons] at h
    by_cases hyx : y.distance_km < x.distance_km
    · rw [insertShopByDist, if_pos hyx, List.pairwise_cons]
      refine ⟨?_, ih h.2⟩
      intro z hz
      rcases (mem_insertShopByDist x z ys).mp hz with rfl | hz
      · exact le_of_lt hyx
      · exact h.1 z hz
    · rw [insertShopByDist, if_neg hyx, List.pairwise_cons]
      refine ⟨?_, List.pairwise_cons.mpr h⟩
      intro z hz
      rcases List.mem_cons.mp hz with rfl | hz
      · exact not_lt.mp hyx
      · exact (not_lt.mp hyx).trans (h.1 z hz)

/-- The shop sort sorts by the distance key. -/
lemma pairwise_sortShopsByDist (l : List NearShop) :
    (sortShopsByDist l).Pairwise fun a b => a.distance_km ≤ b.distance_km := by
  induction l with
  | nil => simp [sortShopsByDist]
  | cons x xs ih => exact pairwise_insertShopByDist x _ ih

/-- A fold that conditionally conses a transformed element is a filter
followed by a map. -/
lemma foldr_if_cons_eq_filter_map {α β : Type} (p : α → Bool) (f : α → β)
    (l : List α) :
    l.foldr (fun a acc => if p a then f a :: acc else acc) [] =
      (l.filter p).map f := by
  induction l with
  | nil => simp
  | cons a l ih =>
    by_cases h : p a
    · simp [List.filter_cons, h, ih]
    · simp [List.filter_cons, h, ih]

/-! ## Claim about the shop locator -/

/-- C3: `find_nearby_shops` includes a catalog shop iff its planar distance
`sqrt(((lat2-lat1)*111)^2 + ((lon2-lon1)*111)^2)` is at most the radius
(inclusive), reports each distance rounded to two decimal places, returns
the included shops sorted ascending by that reported distance, and never
more than `limit` of them. -/
theorem C3_find_nearby_shops_characterisation
    (latitude longitude radius_km : ℝ) (limit : Nat) :
    find_nearby_shops latitude longitude radius_km limit =
      (sortShopsByDist (included_shops_spec latitude longitude radius_km)).take limit ∧
    (find_nearby_shops latitude longitude radius_km limit).length ≤ limit ∧
    (find_nearby_shops latitude longitude radius_km limit).Pairwise
      (fun a b => a.distance_km ≤ b.distance_km) := by
  have hfold : find_nearby_shops latitude longitude radius_km limit =
      (sortShopsByDist (included_shops_spec latitude longitude radius_km)).take limit := by
    unfold find_nearby_shops included_shops_spec
    rw [foldr_if_cons_eq_filter_map]
  refine ⟨hfold, ?_, ?_⟩
  · rw [hfold]
    exact List.length_take_le _ _
  · rw [hfold]
    exact (pairwise_sortShopsByDist _).sublist (List.take_sublist _ _)

/-! ## Pricing estimator (`ShopService.get_prices_for_recipe`,
`ShopService.find_cheapest_shop`)

Price dictionaries become association lists in insertion order; prices are
exact rationals.  Python `round(x, 2)` becomes `round2q`. -/

/-- The fixed price table `MOCK_PRICES`, transcribed in insertion order. -/
def MOCK_PRICES : List (String × List (String × ℚ)) := [
  ("shop_001", [
    ("Куриное филе", 289), ("Брокколи", 49), ("Салат", 35),
    ("Помидоры", 45), ("Огурец", 15), ("Оливковое масло", 320)]),
  ("shop_002", [
    ("Куриное филе", 269), ("Брокколи", 59), ("Салат", 39),
    ("Помидоры", 49), ("Огурец", 18), ("Оливковое масло", 299)]),
  ("shop_003", [
    ("Куриное филе", 299), ("Брокколи", 44), ("Салат", 32),
    ("Помидоры", 42), ("Огурец", 12), ("Оливковое масло", 340)])]

/-- Python `round(x, 2)` over exact rationals (same half-integral caveat as
`round2`). -/
def round2q (x : ℚ) : ℚ := (round (x * 100) : ℤ) / 100

/-- The per-shop record built by `get_prices_for_recipe`.  `shop_id` models
the dictionary key of that name: absent (`none`) when the record is built,
inserted later by `find_cheapest_shop`. -/
structure PriceInfo where
  shop_name : String
  total_price : ℚ
  found_ingredients : Nat
  total_ingredients : Nat
  price_per_serving : ℚ
  address : String
  rating : ℚ
  shop_id : Option String
deriving DecidableEq

/-- Inner loop body of `get_prices_for_recipe`: look the ingredient name up
in the shop's price table; `if price_per_unit:` is Python truthiness, so a
missing entry and a zero price are both skipped (the ingredient `amount` is
read by the source but never used). -/
def priceFoldStep (shop_prices : List (String × ℚ)) (acc : ℚ × Nat)
    (ingredient : Ingredient) : ℚ × Nat :=
  match shop_prices.lookup ingredient.name with
  | some price_per_unit =>
    if price_per_unit = 0 then acc else (acc.1 + price_per_unit, acc.2 + 1)
  | none => acc

/-- Embedding of `ShopService.get_prices_for_recipe` (the `recipe_id`
argument is accepted and unused, as in the source). -/
def get_prices_for_recipe (recipe_id : String) (ingredients : List Ingredient) :
    List (String × PriceInfo) :=
  MOCK_SHOPS.map fun shop =>
    let shop_prices := (MOCK_PRICES.lookup shop.id).getD []
    let totals := ingredients.foldl (priceFoldStep shop_prices) (0, 0)
    (shop.id,
      { shop_name := shop.name
        total_price := totals.1
        found_ingredients := totals.2
        total_ingredients := ingredients.length
        price_per_serving :=
          if ingredients.isEmpty then 0
          else round2q (totals.1 / (ingredients.length : ℚ))
        address := shop.address
        rating := shop.rating
        shop_id := none })

/-- Embedding of `ShopService.find_cheapest_shop` (pure view): Python
`min(items, key=...)` keeps the first entry on ties, and the returned
dictionary gains the `shop_id` key. -/
def find_cheapest_shop (prices_by_shop : List (String × PriceInfo)) :
    Option PriceInfo :=
  match prices_by_shop with
  | [] => none
  | x :: xs =>
    let cheapest := xs.foldl
      (fun best y => if y.2.total_price < best.2.total_price then y else best) x
    some { cheapest.2 with shop_id := some cheapest.1 }

/-- Modelled from the claim wording of C7: the minimum of all
`total_price` values of a non-empty map, written as a fold of `min`. -/
def minTotalPrice (x : String × PriceInfo) (xs : List (String × PriceInfo)) : ℚ :=
  xs.foldl (fun m e => min m e.2.total_price) x.2.total_price

/-- Modelled from the claim wording of C7: nothing on the empty map, else
the first-encountered entry whose `total_price` attains the minimum. -/
def cheapest_shop_spec : List (String × PriceInfo) → Option (String × PriceInfo)
  | [] => none
  | x :: xs =>
    (x :: xs).find? fun e => decide (e.2.total_price = minTotalPrice x xs)

/-! ## Lemmas about the pricing folds -/

/-- Key of the selection step of the Python `min`. -/
lemma select_step_total_price (x y : String × PriceInfo) :
    ((if y.2.total_price < x.2.total_price then y else x) : String × PriceInfo).2.total_price =
      min x.2.total_price y.2.total_price := by
  rcases lt_or_le y.2.total_price x.2.total_price with h | h
  · rw [if_pos h, min_eq_right h.le]
  · rw [if_neg (not_lt.mpr h), min_eq_left h]

/-- Peeling one element off the minimum fold. -/
lemma minTotalPrice_cons (x y : String × PriceInfo)
    (ys : List (String × PriceInfo)) :
    minTotalPrice x (y :: ys) =
      minTotalPrice (if y.2.total_price < x.2.total_price then y else x) ys := by
  unfold minTotalPrice
  rw [List.foldl_cons, select_step_total_price]

/-- The minimum fold never exceeds the price of its head entry. -/
lemma minTotalPrice_le_head (xs : List (String × PriceInfo))
    (x : String × PriceInfo) :
    minTotalPrice x xs ≤ x.2.total_price := by
  induction xs generalizing x with
  | nil => exact le_rfl
  | cons y ys ih =>
    rw [minTotalPrice_cons]
    exact (ih _).trans ((select_step_total_price x y).le.trans (min_le_left _ _))

/-- The first entry attaining the minimal total price is the entry the
Python `min` fold selects. -/
lemma find?_min_eq_foldl (xs : List (String × PriceInfo))
    (x : String × PriceInfo) :
    ((x :: xs).find? fun e => decide (e.2.total_price = minTotalPrice x xs)) =
      some (xs.foldl
        (fun best y => if y.2.total_price < best.2.total_price then y else best) x) := by
  induction xs generalizing x with
  | nil =>
    simp [minTotalPrice, List.find?]
  | cons y ys ih =>
    have hmin := minTotalPrice_cons x y ys
    have hM_le_min : minTotalPrice x (y :: ys) ≤ min x.2.total_price y.2.total_price := by
      rw [hmin]
      exact (minTotalPrice_le_head ys _).trans_eq (select_step_total_price x y)
    have hIH := ih (if y.2.total_price < x.2.total_price then y else x)
    simp only [← hmin] at hIH
    rw [List.foldl_cons]
    rcases lt_or_le y.2.total_price x.2.total_price with hyx | hxy
    · -- the head `x` is strictly beaten by `y`, so `x` cannot attain the minimum
      rw [if_pos hyx] at hIH ⊢
      have hxne : ¬ (x.2.total_price = minTotalPrice x (y :: ys)) := by
        intro hx
        have hle : x.2.total_price ≤ y.2.total_price :=
          hx.le.trans (hM_le_min.trans (min_le_right _ _))
        exact absurd hle (not_le.mpr hyx)
      rw [List.find?_cons_of_neg _ (by simpa using hxne)]
      exact hIH
    · -- the head `x` survives the first comparison
      rw [if_neg (not_lt.mpr hxy)] at hIH ⊢
      by_cases hx : x.2.total_price = minTotalPrice x (y :: ys)
      · rw [List.find?_cons_of_pos _ (by simpa using hx)]
        rw [List.find?_cons_of_pos _ (by simpa using hx)] at hIH
        exact hIH
      · have hyne : ¬ (y.2.total_price = minTotalPrice x (y :: ys)) := by
          intro hy
          have hxm : x.2.total_price = minTotalPrice x (y :: ys) :=
            le_antisymm (hxy.trans hy.le) (hM_le_min.trans (min_le_left _ _))
          exact hx hxm
        rw [List.find?_cons_of_neg _ (by simpa using hx),
          List.find?_cons_of_neg _ (by simpa using hyne)]
        rw [List.find?_cons_of_neg _ (by simpa using hx)] at hIH
        exact hIH

/-! ## Claims about the pricing estimator -/

/-- Fixed ingredient list used by the C6 counterexample and witness. -/
def ingredientsC6 : List Ingredient := [
  { name := "Куриное филе", amount := 300, unit := "g" },
  { name := "Брокколи", amount := 200, unit := "g" },
  { name := "Огурец", amount := 1, unit := "шт" }]

/-- C6 (counterexample): `price_per_serving` is the rounded quotient, not
the exact quotient the claim states: for three priced ingredients in
shop_001 the total is 353 and the stored per-serving price is 117.67,
while 353/3 is not 117.67. -/
theorem C6_counterexample :
    ((get_prices_for_recipe "r_001" ingredientsC6).lookup "shop_001").map
        (fun info => (info.total_price, info.price_per_serving)) =
      some (353, 11767/100) ∧
    (11767 : ℚ)/100 ≠ 353/3 := by
  refine ⟨by with_unfolding_all rfl, by norm_num⟩

/-- Count of the pricing fold grows by at most one per ingredient. -/
lemma priceFold_count_le (shop_prices : List (String × ℚ))
    (l : List Ingredient) (acc : ℚ × Nat) :
    (l.foldl (priceFoldStep shop_prices) acc).2 ≤ acc.2 + l.length := by
  induction l generalizing acc with
  | nil => simp
  | cons i l ih =>
    have hstep : (priceFoldStep shop_prices acc i).2 ≤ acc.2 + 1 := by
      rcases hl : shop_prices.lookup i.name with _ | p
      · simp [priceFoldStep, hl]
      · by_cases hp : p = 0 <;> simp [priceFoldStep, hl, hp]
    calc (l.foldl (priceFoldStep shop_prices) (priceFoldStep shop_prices acc i)).2
        ≤ (priceFoldStep shop_prices acc i).2 + l.length := ih _
      _ ≤ acc.2 + 1 + l.length := by omega
      _ = acc.2 + (l.length + 1) := by omega

/-- C6 (amended): for every ingredient list and every record produced by
`get_prices_for_recipe`, `price_per_serving` equals `total_price` divided
by the number of all ingredients and rounded to two decimal places (0 for
the empty list), and `found_ingredients` never exceeds the number of
ingredients. -/
theorem C6_price_per_serving (recipe_id : String)
    (ingredients : List Ingredient) (sid : String) (info : PriceInfo)
    (h : (sid, info) ∈ get_prices_for_recipe recipe_id ingredients) :
    info.price_per_serving =
      (if ingredients.isEmpty then 0
       else round2q (info.total_price / (ingredients.length : ℚ))) ∧
    info.found_ingredients ≤ ingredients.length := by
  unfold get_prices_for_recipe at h
  rcases List.mem_map.mp h with ⟨shop, _, heq⟩
  have hinfo := congrArg Prod.snd heq
  simp only at hinfo
  subst hinfo
  refine ⟨rfl, ?_⟩
  simpa using priceFold_count_le ((MOCK_PRICES.lookup shop.id).getD [])
    ingredients (0, 0)

/-- Witness for C6 at a concrete input: the shop_001 record for three
priced ingredients. -/
def infoC6 : PriceInfo :=
  { shop_name := "Пятёрочка на Красной площади"
    total_price := 353
    found_ingredients := 3
    total_ingredients := 3
    price_per_serving := 11767/100
    address := "Москва, Красная площадь, 1"
    rating := 4.7
    shop_id := none }

/-- Witness for C6: the amended statement instantiated at the concrete
shop_001 record. -/
theorem C6_witness :
    ("shop_001", infoC6) ∈ get_prices_for_recipe "r_001" ingredientsC6 ∧
    (infoC6.price_per_serving =
      (if ingredientsC6.isEmpty then 0
       else round2q (infoC6.total_price / (ingredientsC6.length : ℚ))) ∧
     infoC6.found_ingredients ≤ ingredientsC6.length) :=
  ⟨by with_unfolding_all (exact List.Mem.head _),
   C6_price_per_serving "r_001" ingredientsC6 "shop_001" infoC6
     (by with_unfolding_all (exact List.Mem.head _))⟩

/-- C7: `find_cheapest_shop` of the empty price map is nothing; of a
non-empty map it is the first-encountered entry attaining the minimum
`total_price` (the returned record additionally carries the `shop_id` key
the source inserts). -/
theorem C7_find_cheapest_shop_spec (m : List (String × PriceInfo)) :
    find_cheapest_shop m = (cheapest_shop_spec m).map
      (fun e => { e.2 with shop_id := some e.1 }) := by
  cases m with
  | nil => rfl
  | cons x xs =>
    have h2 : cheapest_shop_spec (x :: xs) =
        some (xs.foldl
          (fun best y => if y.2.total_price < best.2.total_price then y else best) x) := by
      unfold cheapest_shop_spec
      exact find?_min_eq_foldl xs x
    rw [h2]
    rfl

/-! ## Heap view of `find_cheapest_shop` (for the in-place mutation claim)

Python dictionaries are heap objects: `prices_by_shop` maps shop ids to
references of per-shop dictionaries, and `shop_data["shop_id"] = shop_id`
mutates the referenced dictionary in place.  The embedding makes the heap
explicit: a store assigns a `PriceInfo` record to every address, and the
price map holds addresses. -/

/-- Heap of price dictionaries, indexed by address. -/
structure Store where
  recs : Nat → PriceInfo

/-- Write one address of the store. -/
def storeWrite (σ : Store) (addr : Nat) (v : PriceInfo) : Store :=
  ⟨fun a => if a = addr then v else σ.recs a⟩

/-- The entry Python `min` selects, read through the store ( `("", 0)` is a
placeholder for the empty map, on which the source returns early). -/
def minEntryHeap (σ : Store) : List (String × Nat) → String × Nat
  | [] => ("", 0)
  | x :: xs => xs.foldl (fun best y =>
      if (σ.recs y.2).total_price < (σ.recs best.2).total_price then y
      else best) x

/-- Embedding of `ShopService.find_cheapest_shop` with the heap explicit:
select the minimum entry, write the `shop_id` key into the dictionary the
entry references, and return that same address. -/
def find_cheapest_shop_heap (σ : Store) (m : List (String × Nat)) :
    Store × Option Nat :=
  match m with
  | [] => (σ, none)
  | x :: xs =>
    let cheapest := xs.foldl (fun best y =>
      if (σ.recs y.2).total_price < (σ.recs best.2).total_price then y
      else best) x
    (storeWrite σ cheapest.2
      { σ.recs cheapest.2 with shop_id := some cheapest.1 },
     some cheapest.2)

/-- Reading the just-written address returns the written record. -/
lemma storeWrite_same (σ : Store) (addr : Nat) (v : PriceInfo) :
    (storeWrite σ addr v).recs addr = v := by
  simp [storeWrite]

/-- Reading any other address is unaffected by the write. -/
lemma storeWrite_other (σ : Store) (addr a : Nat) (v : PriceInfo)
    (h : a ≠ addr) :
    (storeWrite σ addr v).recs a = σ.recs a := by
  simp [storeWrite, h]

/-- The selection fold of the heap view lands in the list or on the
initial accumulator. -/
lemma minEntryHeap_mem (σ : Store) (xs : List (String × Nat))
    (x : String × Nat) :
    xs.foldl (fun best y =>
      if (σ.recs y.2).total_price < (σ.recs best.2).total_price then y
      else best) x ∈ x :: xs := by
  induction xs generalizing x with
  | nil => exact List.mem_singleton.mpr rfl
  | cons y ys ih =>
    rw [List.foldl_cons]
    rcases List.mem_cons.mp (ih (if (σ.recs y.2).total_price < (σ.recs x.2).total_price then y else x)) with h1 | h1
    · rw [h1]
      by_cases hc : (σ.recs y.2).total_price < (σ.recs x.2).total_price
      · rw [if_pos hc]
        exact List.mem_cons_of_mem _ (List.mem_cons_self _ _)
      · rw [if_neg hc]
        exact List.mem_cons_self _ _
    · exact List.mem_cons_of_mem _ (List.mem_cons_of_mem _ h1)

/-- Mapping the store read over the heap fold gives the pure fold. -/
lemma minEntryHeap_map (σ : Store) (xs : List (String × Nat))
    (x : String × Nat) :
    ((xs.foldl (fun best y =>
        if (σ.recs y.2).total_price < (σ.recs best.2).total_price then y
        else best) x).1,
      σ.recs (xs.foldl (fun best y =>
        if (σ.recs y.2).total_price < (σ.recs best.2).total_price then y
        else best) x).2) =
    (xs.map fun e => (e.1, σ.recs e.2)).foldl
      (fun best y => if y.2.total_price < best.2.total_price then y else best)
      (x.1, σ.recs x.2) := by
  induction xs generalizing x with
  | nil => rfl
  | cons y ys ih =>
    rw [List.foldl_cons, List.map_cons, List.foldl_cons]
    by_cases hc : (σ.recs y.2).total_price < (σ.recs x.2).total_price
    · rw [if_pos hc, if_pos hc]
      exact ih y
    · rw [if_neg hc, if_neg hc]
      exact ih x

/-- C10: on a non-empty price map the function returns the address stored
in the map's minimum entry itself (the caller's dictionary, not a copy),
the store is updated at exactly that address by inserting the `shop_id`
key, every other address is untouched, and the selected entry agrees with
the pure `find_cheapest_shop` on the store-read view of the map. -/
theorem C10_find_cheapest_shop_mutation (σ : Store)
    (m : List (String × Nat)) (h : m ≠ []) :
    (find_cheapest_shop_heap σ m).2 = some (minEntryHeap σ m).2 ∧
    minEntryHeap σ m ∈ m ∧
    (find_cheapest_shop_heap σ m).1.recs (minEntryHeap σ m).2 =
      { σ.recs (minEntryHeap σ m).2 with shop_id := some (minEntryHeap σ m).1 } ∧
    (∀ a, a ≠ (minEntryHeap σ m).2 →
      (find_cheapest_shop_heap σ m).1.recs a = σ.recs a) ∧
    find_cheapest_shop (m.map fun e => (e.1, σ.recs e.2)) =
      some { σ.recs (minEntryHeap σ m).2 with
             shop_id := some (minEntryHeap σ m).1 } := by
  cases m with
  | nil => exact absurd rfl h
  | cons x xs =>
    refine ⟨rfl, ?_, ?_, ?_, ?_⟩
    · simp only [minEntryHeap]
      exact minEntryHeap_mem σ xs x
    · show (storeWrite σ (minEntryHeap σ (x :: xs)).2
          { σ.recs (minEntryHeap σ (x :: xs)).2 with
            shop_id := some (minEntryHeap σ (x :: xs)).1 }).recs
          (minEntryHeap σ (x :: xs)).2 = _
      exact storeWrite_same σ _ _
    · intro a ha
      show (storeWrite σ (minEntryHeap σ (x :: xs)).2
          { σ.recs (minEntryHeap σ (x :: xs)).2 with
            shop_id := some (minEntryHeap σ (x :: xs)).1 }).recs a = σ.recs a
      exact storeWrite_other σ _ a _ ha
    · have hfc : find_cheapest_shop ((x.1, σ.recs x.2) ::
          xs.map (fun e => (e.1, σ.recs e.2))) =
          some { ((xs.map fun e => (e.1, σ.recs e.2)).foldl
              (fun best y => if y.2.total_price < best.2.total_price then y else best)
              (x.1, σ.recs x.2)).2 with
            shop_id := some ((xs.map fun e => (e.1, σ.recs e.2)).foldl
              (fun best y => if y.2.total_price < best.2.total_price then y else best)
              (x.1, σ.recs x.2)).1 } := rfl
      rw [List.map_cons, hfc, ← minEntryHeap_map σ xs x]
      rfl

/-- Record fixture for the C10 witness (the dearer shop). -/
def infoC10a : PriceInfo :=
  { shop_name := "Магнит", total_price := 100, found_ingredients := 1
    total_ingredients := 1, price_per_serving := 100, address := "a"
    rating := 4, shop_id := none }

/-- Record fixture for the C10 witness (the cheaper shop). -/
def infoC10b : PriceInfo :=
  { shop_name := "Дикси", total_price := 50, found_ingredients := 1
    total_ingredients := 1, price_per_serving := 50, address := "b"
    rating := 5, shop_id := none }

/-- Store fixture for the C10 witness: address 1 holds the cheaper record. -/
def storeC10 : Store := ⟨fun a => if a = 1 then infoC10b else infoC10a⟩

/-- Price map fixture for the C10 witness. -/
def mapC10 : List (String × Nat) := [("shop_001", 0), ("shop_002", 1)]

/-- Witness for C10 at the concrete fixture: the returned reference is the
address held in the map's minimum entry. -/
theorem C10_witness :
    mapC10 ≠ [] ∧
    (find_cheapest_shop_heap storeC10 mapC10).2 =
      some (minEntryHeap storeC10 mapC10).2 :=
  ⟨by decide,
   (C10_find_cheapest_shop_mutation storeC10 mapC10 (by decide)).1⟩

/-! ## Advice client (`services/gpt_service.py`)

The upstream `openai.ChatCompletion.create` call is external: an oracle
maps each prompt and attempt number to its outcome.  With the pre-1.0
openai SDK used here (`openai.ChatCompletion`), `APIConnectionError` is a
sibling of `APIError`, so the `except openai.APIError` clause does not
catch it and it falls to the blanket `except Exception`. -/

/-- Exception classes relevant to `ask_dietician`. -/
inductive ExcKind
  | apiError
  | apiConnectionError
  | otherError
deriving DecidableEq

/-- Outcome of one upstream call: a reply content or a raised exception. -/
inductive UpstreamOutcome
  | ok (content : String)
  | raise (e : ExcKind)
deriving DecidableEq

/-- Static apology returned by the `except openai.APIError` clause. -/
def apologyText : String :=
  "❌ Извините, диетолог временно недоступен. Пожалуйста, попробуйте позже."

/-- Static message returned by the blanket `except Exception` clause. -/
def genericErrorText : String := "❌ Произошла ошибка. Попробуйте позже."

/-- Diagnosis context line of `ask_dietician`. -/
def diagnosis_context (has_diabetes has_gout has_celiac : Bool) : String :=
  let diagnoses :=
    (if has_diabetes then ["сахарный диабет"] else []) ++
    (if has_gout then ["подагра"] else []) ++
    (if has_celiac then ["целиакия"] else [])
  if diagnoses.isEmpty then "Пользователь без специальных диагнозов. "
  else "Пользователь имеет: " ++ String.intercalate ", " diagnoses ++ ". "

/-- Full user-role message of `ask_dietician`. -/
def full_prompt (question : String)
    (has_diabetes has_gout has_celiac : Bool) : String :=
  diagnosis_context has_diabetes has_gout has_celiac ++ "\n" ++
    "Вопрос: " ++ question ++ "\n" ++
    "Ответьте с учётом здоровья пользователя."

/-- The `try`/`except` body of `ask_dietician` for one attempt: a
successful call returns the stripped reply content, `APIError` is
converted to the apology, every other exception to the generic message.
The body never raises, whatever the upstream does. -/
def ask_dietician_body (prompt : String)
    (oracle : String → Nat → UpstreamOutcome) (attempt : Nat) :
    Except ExcKind String :=
  match oracle prompt attempt with
  | .ok content => .ok (String.mk (pyStrip content.data))
  | .raise .apiError => .ok apologyText
  | .raise _ => .ok genericErrorText

/-- Exceptions the decorator retries on:
`retry_if_exception_type((openai.APIError, openai.APIConnectionError))`. -/
def retryable : ExcKind → Bool
  | .apiError => true
  | .apiConnectionError => true
  | .otherError => false

/-- Modelled from the spec: the wait of
`wait_exponential(multiplier=1, min=2, max=10)` before retry `n`
(n = 1, 2, ...) is `multiplier * 2^n` clamped into `[min, max]` — delays
2, 4, 8 capped at 10.  The waits never fire (see the C4 theorem), so only
the configured values matter here. -/
def wait_exponential (multiplier mn mx : ℚ) (n : Nat) : ℚ :=
  min mx (max mn (multiplier * 2 ^ n))

/-- The `stop_after_attempt(3)` loop of the `tenacity.retry` decorator:
run attempts while the decorated call raises a retryable exception and
attempts remain; the outcome of the final attempt is returned (a
non-retryable exception or the last raised exception propagates). -/
def retryLoop (f : Nat → Except ExcKind String) :
    Nat → Nat → Except ExcKind String
  | 0, i => f i
  | 1, i => f i
  | remaining + 2, i =>
    match f i with
    | .ok a => .ok a
    | .error e =>
      if retryable e then retryLoop f (remaining + 1) (i + 1) else .error e

/-- Embedding of the decorated `GPTService.ask_dietician`: the retry
policy applied to the guarded body. -/
def ask_dietician (question : String)
    (has_diabetes has_gout has_celiac : Bool)
    (oracle : String → Nat → UpstreamOutcome) : Except ExcKind String :=
  retryLoop
    (ask_dietician_body
      (full_prompt question has_diabetes has_gout has_celiac) oracle) 3 0

/-! ## Claims about the advice client -/

/-- Oracle of the C4 counterexample: the first attempt raises a transient
connection error, every later attempt would succeed. -/
def oracleC4 : String → Nat → UpstreamOutcome :=
  fun _ attempt => if attempt = 0 then .raise .apiConnectionError else .ok "Ответ"

/-- C4 (counterexample): on a transient connection error in attempt 1 the
claimed retry behaviour would reach attempt 2 and return its answer, but
the code converts the error to the static generic message inside the
`try`, so the decorator sees no exception and no retry happens. -/
theorem C4_counterexample :
    oracleC4 (full_prompt "Вопрос" false false false) 0 =
      .raise .apiConnectionError ∧
    oracleC4 (full_prompt "Вопрос" false false false) 1 = .ok "Ответ" ∧
    ask_dietician "Вопрос" false false false oracleC4 =
      .ok genericErrorText ∧
    genericErrorText ≠ "Ответ" := by
  refine ⟨rfl, rfl, rfl, by decide⟩

/-- C4 (amended): the decorator is configured with `stop_after_attempt(3)`
and `wait_exponential(1, 2, 10)` (delays 2, 4, 8 capped at 10), but the
body converts every upstream failure into a returned string before the
decorator can see it, so exactly one upstream attempt is ever made and the
call never raises: it returns the stripped answer, the apology on
`APIError`, or the generic message on any other exception. -/
theorem C4_ask_dietician_never_raises (question : String)
    (has_diabetes has_gout has_celiac : Bool)
    (oracle : String → Nat → UpstreamOutcome) :
    ask_dietician question has_diabetes has_gout has_celiac oracle =
      ask_dietician_body
        (full_prompt question has_diabetes has_gout has_celiac) oracle 0 ∧
    (ask_dietician question has_diabetes has_gout has_celiac oracle).isOk
      = true ∧
    wait_exponential 1 2 10 1 = 2 ∧
    wait_exponential 1 2 10 2 = 4 ∧
    wait_exponential 1 2 10 3 = 8 := by
  have hbody : ∀ attempt, ∃ s,
      ask_dietician_body
        (full_prompt question has_diabetes has_gout has_celiac) oracle attempt
        = .ok s := by
    intro attempt
    unfold ask_dietician_body
    cases oracle (full_prompt question has_diabetes has_gout has_celiac) attempt with
    | ok content => exact ⟨_, rfl⟩
    | raise e => cases e <;> exact ⟨_, rfl⟩
  obtain ⟨s, hs⟩ := hbody 0
  have h1 : ask_dietician question has_diabetes has_gout has_celiac oracle =
      ask_dietician_body
        (full_prompt question has_diabetes has_gout has_celiac) oracle 0 := by
    unfold ask_dietician retryLoop
    rw [hs]
  refine ⟨h1, ?_, ?_, ?_, ?_⟩
  · rw [h1, hs]
    rfl
  · unfold wait_exponential
    norm_num
  · unfold wait_exponential
    norm_num
  · unfold wait_exponential
    norm_num

/-! ## Conversation state machine (`handlers.py`)

The global `user_state` dictionary maps a telegram user id to
`{"action": tag}`; the inner dictionary always holds the single key
`action`, so the state carries the tag directly.  `handle_text` is the
text-message handler registered for `content_types=["text"]`; commands are
consumed by their own handlers and never reach it. -/

/-- The `user_state` dictionary, as a partial map. -/
def StateMap : Type := Nat → Option String

/-- Deletion `del user_state[user_id]`. -/
def stateDel (st : StateMap) (user_id : Nat) : StateMap :=
  fun v => if v = user_id then none else st v

/-- Diagnosis flags of the user's database row, read by `handle_text`. -/
structure UserFlags where
  has_diabetes : Bool
  has_gout : Bool
  has_celiac : Bool

/-- The configured `settings.max_recipe_results` (default 10). -/
def max_recipe_results : Nat := 10

/-- Messages `handle_text` can send, in order. -/
inductive Reply
  | searchingNotice (query : String)
  | recipesFound (recipes : List Recipe)
  | notFoundMsg
  | dieticianThinking
  | dieticianAnswer (answer : String)
  | errorMsg
  | mainMenu
deriving DecidableEq

/-- Embedding of `handle_text`: dispatch on the pending action of the
sender.  `search_recipe` searches and deletes the state entry;
`ask_dietician` asks and deletes the entry (were the advice call to raise,
the surrounding `except` would reply with an error message and leave the
entry in place); any other pending tag — `find_shops` included — matches
no branch, so nothing is sent and the state is untouched; with no entry at
all the main menu is sent again. -/
def handle_text (st : StateMap) (user_id : Nat) (text : String)
    (user : UserFlags) (oracle : String → Nat → UpstreamOutcome) :
    StateMap × List Reply :=
  match st user_id with
  | some action =>
    if action = "search_recipe" then
      let recipes := search_recipes text user.has_diabetes user.has_gout
        user.has_celiac max_recipe_results
      (stateDel st user_id,
        [.searchingNotice text,
         if recipes.isEmpty then .notFoundMsg else .recipesFound recipes])
    else if action = "ask_dietician" then
      match ask_dietician text user.has_diabetes user.has_gout
          user.has_celiac oracle with
      | .ok response =>
        (stateDel st user_id, [.dieticianThinking, .dieticianAnswer response])
      | .error _ => (st, [.dieticianThinking, .errorMsg])
    else
      (st, [])
  | none => (st, [.mainMenu])

/-! ## Claims about the conversation state machine -/

/-- State of the C5 counterexample and witness: user 42 has the pending
action `find_shops`. -/
def stC5 : StateMap := fun v => if v = 42 then some "find_shops" else none

/-- Flags fixture for the conversation claims. -/
def flagsC5 : UserFlags := ⟨false, false, false⟩

/-- Oracle fixture for the conversation claims (never consulted on the
paths at issue). -/
def oracleC5 : String → Nat → UpstreamOutcome := fun _ _ => .ok "ok"

/-- C5 (counterexample): a text message in the `find_shops` state produces
no reply at all, while the same message in the Idle state re-sends the
main menu — the two behaviours differ, contrary to the claim. -/
theorem C5_counterexample :
    (handle_text stC5 42 "привет" flagsC5 oracleC5).2 = [] ∧
    (handle_text (fun _ => none) 42 "привет" flagsC5 oracleC5).2 =
      [Reply.mainMenu] ∧
    ([] : List Reply) ≠ [Reply.mainMenu] := by
  refine ⟨rfl, rfl, by decide⟩

/-- C5 (amended): a text message received while the pending action is
`find_shops` leaves the user's state entry unchanged (the entry is not
deleted) and sends no reply at all; unlike Idle, no main menu is
presented. -/
theorem C5_find_shops_text_ignored (st : StateMap) (user_id : Nat)
    (text : String) (user : UserFlags)
    (oracle : String → Nat → UpstreamOutcome)
    (h : st user_id = some "find_shops") :
    handle_text st user_id text user oracle = (st, []) := by
  unfold handle_text
  rw [h]
  rfl

/-- Witness for C5 at the concrete fixture state. -/
theorem C5_witness :
    stC5 42 = some "find_shops" ∧
    handle_text stC5 42 "привет" flagsC5 oracleC5 = (stC5, []) :=
  ⟨rfl, C5_find_shops_text_ignored stC5 42 "привет" flagsC5 oracleC5 rfl⟩

/-- C9: a free-text message in the `AwaitingInput(search_recipe)` state
invokes the recipe search with the message text and the user's diagnosis
flags, replies with the found recipes or a not-found notice, and deletes
the user's state entry (back to Idle) either way. -/
theorem C9_search_recipe_returns_to_idle (st : StateMap) (user_id : Nat)
    (text : String) (user : UserFlags)
    (oracle : String → Nat → UpstreamOutcome)
    (h : st user_id = some "search_recipe") :
    handle_text st user_id text user oracle =
      (stateDel st user_id,
        [.searchingNotice text,
         if (search_recipes text user.has_diabetes user.has_gout
              user.has_celiac max_recipe_results).isEmpty
         then .notFoundMsg
         else .recipesFound (search_recipes text user.has_diabetes
           user.has_gout user.has_celiac max_recipe_results)]) ∧
    (handle_text st user_id text user oracle).1 user_id = none := by
  have h1 : handle_text st user_id text user oracle =
      (stateDel st user_id,
        [.searchingNotice text,
         if (search_recipes text user.has_diabetes user.has_gout
              user.has_celiac max_recipe_results).isEmpty
         then .notFoundMsg
         else .recipesFound (search_recipes text user.has_diabetes
           user.has_gout user.has_celiac max_recipe_results)]) := by
    unfold handle_text
    rw [h]
    rfl
  refine ⟨h1, ?_⟩
  rw [h1]
  show stateDel st user_id user_id = none
  unfold stateDel
  rw [if_pos rfl]

/-- State of the C9 witness: user 42 awaits a recipe query. -/
def stC9 : StateMap := fun v => if v = 42 then some "search_recipe" else none

/-- Witness for C9 at the concrete fixture state: after the message the
entry of user 42 is gone. -/
theorem C9_witness :
    stC9 42 = some "search_recipe" ∧
    (handle_text stC9 42 "курица" flagsC5 oracleC5).1 42 = none :=
  ⟨rfl, (C9_search_recipe_returns_to_idle stC9 42 "курица" flagsC5 oracleC5 rfl).2⟩

end Medmarket
